import Mathlib

/-!
Verification model of `src/hls-capture-extension/background.js`.

The background script keeps a handful of module-level mutable values
(`pendingCaptures`, `captures`, `subtitlesSent`, `seenM3u8`,
`episodeContextByTab`, `autoCapture`) and mutates them from a network-request
listener and a message handler.  We embed that state as the record `BgState`
and each handler as a pure state-transition function, translated line by line
from the source.

Modelling conventions:
* JavaScript numbers used as integers become `Int` (episode/season numbers)
  or `Nat` (timestamps, epochs, counts that are never negative in the source).
* Fields the source sets to `null` and re-checks against `null`
  (`endEp`, `tabId`) become `Option _`.  Numeric fields that are `null` only
  while no session is active, and that the source never reads while `null`
  (`season`, `startEp`, `currentEp`, `startSeason`, `endSeason`,
  `currentSeason`, `totalCount`), are modelled as `Int` with `0` standing in
  for `null`; `consecutiveSkips`, absent from some initializers in the source
  and always read through `(x || 0)`, is a `Nat` starting at `0`.
* The JS `Set`s become `List String` with membership/insert/delete; the
  per-tab `Map` becomes an association list.
* Network side effects (`fetch`, `sendToServer`, badge and tab notifications)
  are external: a transition that triggers one reports it in its result
  (`ObserveOutcome`, the done-signal `Bool` of `autoConfirmDone`), and the
  asynchronous tail of `autoConfirmCapture` (the code after `await
  sendToServer` and the 2 s settle delay) is the separate transition
  `autoConfirmDone`, parameterised by the epoch snapshot taken when the
  capture was observed.
-/

namespace ThunderheadHls

/-- One entry of `autoCapture.episodeHashes` (discovered episode list).
`background.js` only ever reads the `hash` field of these objects. -/
structure EpisodeHash where
  hash : String
deriving DecidableEq

/-- A value of `episodeContextByTab` (set by `setEpisodeContext`). -/
structure EpisodeCtx where
  show_name : String
  season : Option Int
  episode : Option Int
deriving DecidableEq

/-- An entry of `pendingCaptures` (lines 162-169).  The `preview` payload is
filled in later by the external `fetchPreview` call and is not modelled. -/
structure Pending where
  m3u8_url : String
  page_url : String
  tabId : Int
  timestamp : Nat
  previewStatus : String
deriving DecidableEq

/-- An entry of `captures`.  `status` starts as `"sending"`; the external
server response later overwrites it, which we do not model. -/
structure Capture where
  m3u8_url : String
  page_url : String
  tabId : Int
  timestamp : Nat
  status : String
deriving DecidableEq

/-- The `autoCapture` session object (lines 56-78). -/
structure AutoCapture where
  active : Bool
  finished : Bool
  tabId : Option Int
  season : Int
  startEp : Int
  endEp : Option Int
  currentEp : Int
  doneCount : Nat
  totalCount : Int
  serverNum : Int
  graceUntil : Nat
  epoch : Nat
  episodeDoneSent : Bool
  multiSeason : Bool
  startSeason : Int
  endSeason : Int
  currentSeason : Int
  consecutiveSkips : Nat
  episodeHashes : List EpisodeHash
deriving DecidableEq

/-- The module-level mutable state of `background.js`. -/
structure BgState where
  pendingCaptures : List Pending
  captures : List Capture
  subtitlesSent : List String
  seenM3u8 : List String
  episodeContextByTab : List (Int × EpisodeCtx)
  autoCapture : AutoCapture
deriving DecidableEq

/-- Initial `autoCapture` literal (lines 56-78).  `consecutiveSkips` is absent
there (undefined), which every read coerces to 0. -/
def initAutoCapture : AutoCapture :=
  { active := false, finished := false, tabId := none, season := 0,
    startEp := 0, endEp := none, currentEp := 0, doneCount := 0,
    totalCount := 0, serverNum := 1, graceUntil := 0, epoch := 0,
    episodeDoneSent := false, multiSeason := false, startSeason := 0,
    endSeason := 0, currentSeason := 0, consecutiveSkips := 0,
    episodeHashes := [] }

/-- Initial module state (lines 40-53). -/
def initState : BgState :=
  { pendingCaptures := [], captures := [], subtitlesSent := [],
    seenM3u8 := [], episodeContextByTab := [], autoCapture := initAutoCapture }

/-! ### String helpers: `url.includes(".m3u8")` and the `#ep=` hash regexes -/

/-- `leadsWith p l` : `p` is an initial segment of `l`. -/
def leadsWith : List Char → List Char → Bool
  | [], _ => true
  | _ :: _, [] => false
  | a :: as, b :: bs => a = b && leadsWith as bs

/-- Substring containment on character lists (JS `String.prototype.includes`). -/
def isSubstring (needle : List Char) : List Char → Bool
  | [] => leadsWith needle []
  | c :: cs => leadsWith needle (c :: cs) || isSubstring needle cs

/-- Maximal run of leading decimal digits, with the rest of the input. -/
def splitDigits : List Char → List Char × List Char
  | [] => ([], [])
  | c :: cs =>
    if c.isDigit then
      let r := splitDigits cs
      (c :: r.1, r.2)
    else ([], c :: cs)

/-- Decimal value of a digit run (JS `parseInt(s, 10)` on a digit string). -/
def digitsToNat (ds : List Char) : Nat :=
  ds.foldl (fun n c => n * 10 + (c.toNat - 48)) 0

/-- Try to match the regex `#ep=(\d+),(\d+)(?:-(\d+))?` at the start of the
input.  Returns the matched text and the parsed groups. -/
def epHashAt (cs : List Char) : Option (List Char × Int × Int × Option Int) :=
  match cs with
  | '#' :: 'e' :: 'p' :: '=' :: rest =>
    let p1 := splitDigits rest
    if p1.1 = [] then none
    else
      match p1.2 with
      | ',' :: r2 =>
        let p2 := splitDigits r2
        if p2.1 = [] then none
        else
          let base := '#' :: 'e' :: 'p' :: '=' :: p1.1 ++ [','] ++ p2.1
          match p2.2 with
          | '-' :: r3 =>
            let p3 := splitDigits r3
            if p3.1 = [] then
              some (base, (digitsToNat p1.1 : Int), (digitsToNat p2.1 : Int), none)
            else
              some (base ++ ['-'] ++ p3.1, (digitsToNat p1.1 : Int),
                    (digitsToNat p2.1 : Int), some (digitsToNat p3.1 : Int))
          | _ => some (base, (digitsToNat p1.1 : Int), (digitsToNat p2.1 : Int), none)
      | _ => none
  | _ => none

/-- Leftmost match of `#ep=(\d+),(\d+)(?:-(\d+))?` in a character list
(JS `String.prototype.match` with a non-global regex). -/
def findEpHash : List Char → Option (List Char × Int × Int × Option Int)
  | [] => none
  | c :: cs =>
    match epHashAt (c :: cs) with
    | some r => some r
    | none => findEpHash cs

/-! ### SeenUrlRegistry (the `seenM3u8` set, lines 49, 106-110, 277) -/

/-- `admit`: lines 106-110 — reject a URL already seen, otherwise register it
and let it through. -/
def seenAdmit (url : String) (seen : List String) : Bool × List String :=
  if seen.contains url then (false, seen) else (true, url :: seen)

/-- `release`: line 277 (`seenM3u8.delete(removed.m3u8_url)`). -/
def seenRelease (url : String) (seen : List String) : List String :=
  seen.erase url

/-! ### Bounded capture lists -/

/-- `l.push(x)` followed by `if (l.length > n) l = l.slice(-n)`
(lines 170-175 for `pendingCaptures` with n = 20,
lines 263-267 and 374-378 for `captures` with n = 50). -/
def pushTrunc (n : Nat) (l : List α) (x : α) : List α :=
  let l2 := l ++ [x]
  if n < l2.length then l2.drop (l2.length - n) else l2

/-! ### Auto-capture validation (lines 121-156) -/

/-- The discovered navigation token for the current episode: lines 130-133
(`none` is the ternary's `null` branch).  `currentEp` is a 1-based index
into `episodeHashes`.  Line 134 then tests this value for JS truthiness —
`null` and the empty string both skip the comparison — which is modelled at
the use site in `validateAuto`. -/
def expectedToken (ac : AutoCapture) : Option String :=
  let epIdx : Int := ac.currentEp - 1
  if 0 ≤ epIdx ∧ epIdx < (ac.episodeHashes.length : Int) then
    (ac.episodeHashes.get? epIdx.toNat).map (fun h => h.hash)
  else none

/-- The expected season: line 149 (`multiSeason ? currentSeason : season`). -/
def expectedSeasonOf (ac : AutoCapture) : Int :=
  if ac.multiSeason then ac.currentSeason else ac.season

/-- Page-URL validation of an intercepted m3u8 during auto-capture,
lines 127-156.  `true` means the observation is let through to
`autoConfirmCapture`; `false` means the early `return` (rejected). -/
def validateAuto (ac : AutoCapture) (pageUrl : String) : Bool :=
  if 0 < ac.episodeHashes.length then
    -- Discovery mode (lines 127-140): compare the page hash text against the
    -- discovered hash for the current episode, when both are available.
    -- Line 134 `if (expectedHash)` is a JS truthiness test: a `null` token
    -- (index out of range) and an empty-string token both skip the
    -- comparison, so the observation is accepted unchecked.
    match expectedToken ac with
    | some h =>
      if h = "" then true
      else
        match findEpHash pageUrl.toList with
        | some r => String.mk r.1 = h
        | none => true
    | none => true
  else
    -- Fallback mode (lines 141-156): numeric season / episode-range check
    -- against the parsed page hash, when one parses.
    match findEpHash pageUrl.toList with
    | some r =>
      let actualSeason := r.2.1
      let actualEpStart := r.2.2.1
      let actualEpEnd := (r.2.2.2).getD actualEpStart
      ¬(actualSeason ≠ expectedSeasonOf ac ∨ ac.currentEp < actualEpStart ∨
        actualEpEnd < ac.currentEp)
    | none => true

/-! ### The network-request listener, m3u8 branch (lines 102-185) -/

/-- What the listener did with an observed URL. `autoConfirm e` means the
synchronous head of `autoConfirmCapture` ran (capture appended, submission
sent to the external service) with epoch snapshot `e`; the asynchronous tail
is `autoConfirmDone e` below. -/
inductive ObserveOutcome where
  | notManifest
  | duplicate
  | rejected
  | autoConfirm (snapEpoch : Nat)
  | queued
deriving DecidableEq

/-- The m3u8 part of the `chrome.webRequest.onBeforeRequest` listener
(lines 102-185), plus the synchronous head of `autoConfirmCapture`
(lines 360-381: epoch snapshot, capture push with 50-truncation,
submission). -/
def observeM3u8 (url pageUrl : String) (tabId : Int) (now : Nat)
    (st : BgState) : BgState × ObserveOutcome :=
  if ¬ isSubstring ".m3u8".toList url.toList then (st, .notManifest)
  else
    match seenAdmit url st.seenM3u8 with
    | (false, _) => (st, .duplicate)
    | (true, seen2) =>
      let st1 := { st with seenM3u8 := seen2 }
      if st1.autoCapture.tabId = some tabId ∧
          (st1.autoCapture.active = true ∨ now < st1.autoCapture.graceUntil) then
        if validateAuto st1.autoCapture pageUrl then
          let capture : Capture :=
            { m3u8_url := url, page_url := pageUrl, tabId := tabId,
              timestamp := now, status := "sending" }
          ({ st1 with captures := pushTrunc 50 st1.captures capture },
           .autoConfirm st1.autoCapture.epoch)
        else (st1, .rejected)
      else
        let pending : Pending :=
          { m3u8_url := url, page_url := pageUrl, tabId := tabId,
            timestamp := now, previewStatus := "loading" }
        ({ st1 with pendingCaptures := pushTrunc 20 st1.pendingCaptures pending },
         .queued)

/-- Subtitle branch of the listener (lines 91-99), for a URL already
classified as a subtitle: registry add and fire-and-forget send. -/
def observeSubtitle (url : String) (st : BgState) : BgState :=
  if st.subtitlesSent.contains url then st
  else { st with subtitlesSent := url :: st.subtitlesSent }

/-- Asynchronous tail of `autoConfirmCapture` (lines 394-409), run after the
submission completed and the 2 s settle delay elapsed.  `snapEpoch` is the
epoch snapshot taken at line 363.  The returned `Bool` reports whether the
done-signal fired (`doneCount` increment + `autoCaptureEpisodeDone`
notification). -/
def autoConfirmDone (snapEpoch : Nat) (st : BgState) : BgState × Bool :=
  let ac := st.autoCapture
  if snapEpoch ≠ ac.epoch ∨ ac.episodeDoneSent = true then (st, false)
  else
    ({ st with autoCapture :=
        { ac with episodeDoneSent := true, doneCount := ac.doneCount + 1 } },
     true)

/-! ### startAutoCapture / stopAutoCapture (lines 412-507) -/

/-- The `params` of a `startAutoCapture` message: either the single-season
episode-range mode or the multi-season mode (`params.multiSeason`). -/
inductive StartParams where
  | single (season startEp endEp serverNum : Int)
  | multi (startSeason endSeason serverNum : Int)
deriving DecidableEq

/-- `startAutoCapture` (lines 412-496), minus the navigation side effects.
`params.serverNum || 1` maps 0 (falsy) to 1. -/
def startAutoCapture (p : StartParams) (tabId : Int) (st : BgState) : BgState :=
  let ac : AutoCapture :=
    match p with
    | .multi startSeason endSeason serverNum =>
      -- lines 416-439
      { active := true, finished := false, tabId := some tabId,
        season := startSeason, startEp := 1, endEp := none, currentEp := 1,
        doneCount := 0, totalCount := 0,
        serverNum := if serverNum = 0 then 1 else serverNum,
        graceUntil := 0, epoch := 0, episodeDoneSent := false,
        multiSeason := true, startSeason := startSeason,
        endSeason := endSeason, currentSeason := startSeason,
        consecutiveSkips := 0, episodeHashes := [] }
    | .single season startEp endEp serverNum =>
      -- lines 440-463; `consecutiveSkips` is absent from this literal
      -- (undefined, read as 0); season cursor fields are null (0 here)
      { active := true, finished := false, tabId := some tabId,
        season := season, startEp := startEp, endEp := some endEp,
        currentEp := startEp, doneCount := 0,
        totalCount := endEp - startEp + 1,
        serverNum := if serverNum = 0 then 1 else serverNum,
        graceUntil := 0, epoch := 0, episodeDoneSent := false,
        multiSeason := false, startSeason := 0, endSeason := 0,
        currentSeason := 0, consecutiveSkips := 0, episodeHashes := [] }
  -- lines 465-468: clear seen state
  { st with autoCapture := ac, seenM3u8 := [], subtitlesSent := [],
            pendingCaptures := [] }

/-- `stopAutoCapture` (lines 498-507): only `active` and `finished` change;
the tab notification is external. -/
def stopAutoCapture (st : BgState) : BgState :=
  { st with autoCapture :=
      { st.autoCapture with active := false, finished := false } }

/-! ### The autoCaptureAdvance message handler (lines 591-715) -/

/-- Line 661's short-circuit condition
`autoCapture.endEp == null || autoCapture.currentEp < autoCapture.endEp`. -/
def endEpOpenOrBelow (ac : AutoCapture) : Bool :=
  match ac.endEp with
  | none => true
  | some e => decide (ac.currentEp < e)

/-- The `autoCaptureAdvance` handler (lines 591-715).  The returned `Bool` is
the `hasNext` field of the response sent back to the content script. -/
def autoCaptureAdvance (skipped : Bool) (now : Nat) (st : BgState) :
    BgState × Bool :=
  let ac := st.autoCapture
  if skipped && ac.active && ac.multiSeason && ac.endEp.isNone then
    -- lines 599-660: consecutive-skip policy for open-ended seasons
    let ac1 := { ac with consecutiveSkips := ac.consecutiveSkips + 1 }
    if 2 ≤ ac1.consecutiveSkips then
      let ac2 := { ac1 with consecutiveSkips := 0 }
      if ac2.currentSeason < ac2.endSeason then
        -- lines 606-629: advance to next season
        ({ st with autoCapture :=
            { ac2 with currentSeason := ac2.currentSeason + 1,
                       season := ac2.currentSeason + 1, currentEp := 1,
                       startEp := 1, endEp := none, episodeHashes := [],
                       epoch := ac2.epoch + 1, episodeDoneSent := false } },
         true)
      else
        -- lines 630-638: last season done
        ({ st with autoCapture :=
            { ac2 with active := false, finished := true,
                       graceUntil := now + 15000 } },
         false)
    else
      -- lines 639-660: first skip, try next episode
      ({ st with autoCapture :=
          { ac1 with currentEp := ac1.currentEp + 1, epoch := ac1.epoch + 1,
                     episodeDoneSent := false } },
       true)
  else if ac.active && endEpOpenOrBelow ac then
    -- lines 661-682: next episode in current season
    let ac1 := if skipped then ac else { ac with consecutiveSkips := 0 }
    ({ st with autoCapture :=
        { ac1 with currentEp := ac1.currentEp + 1, epoch := ac1.epoch + 1,
                   episodeDoneSent := false } },
     true)
  else if ac.active && ac.multiSeason && decide (ac.currentSeason < ac.endSeason) then
    -- lines 683-706: endEp reached, advance to next season
    ({ st with autoCapture :=
        { ac with currentSeason := ac.currentSeason + 1,
                  season := ac.currentSeason + 1, currentEp := 1,
                  startEp := 1, endEp := none, episodeHashes := [],
                  epoch := ac.epoch + 1, episodeDoneSent := false } },
     true)
  else
    -- lines 707-715: run finished, open the 15 s grace window
    ({ st with autoCapture :=
        { ac with active := false, finished := true,
                  graceUntil := now + 15000 } },
     false)

/-! ### Remaining message handlers (lines 511-779) -/

/-- `clearCaptures` (lines 520-535).  The reset literal omits `serverNum`
(undefined; 0 here). -/
def clearCaptures (_st : BgState) : BgState :=
  { pendingCaptures := [], captures := [], subtitlesSent := [],
    seenM3u8 := [], episodeContextByTab := [],
    autoCapture :=
      { active := false, finished := false, tabId := none, season := 0,
        startEp := 0, endEp := none, currentEp := 0, doneCount := 0,
        totalCount := 0, serverNum := 0, graceUntil := 0, epoch := 0,
        episodeDoneSent := false, multiSeason := false, startSeason := 0,
        endSeason := 0, currentSeason := 0, consecutiveSkips := 0,
        episodeHashes := [] } }

/-- `confirmDownload` (lines 251-271): move `pendingCaptures[index]` to
`captures` (50-truncated) and submit it.  The `Bool` reports whether a
submission was sent. -/
def confirmDownload (index : Int) (now : Nat) (st : BgState) :
    BgState × Bool :=
  if index < 0 ∨ (st.pendingCaptures.length : Int) ≤ index then (st, false)
  else
    match st.pendingCaptures.get? index.toNat with
    | none => (st, false)
    | some pending =>
      let capture : Capture :=
        { m3u8_url := pending.m3u8_url, page_url := pending.page_url,
          tabId := pending.tabId, timestamp := now, status := "sending" }
      ({ st with pendingCaptures := st.pendingCaptures.eraseIdx index.toNat,
                 captures := pushTrunc 50 st.captures capture },
       true)

/-- `dismissCapture` (lines 273-279): drop the pending entry and release its
URL from the seen registry so it can be recaptured. -/
def dismissCapture (index : Int) (st : BgState) : BgState :=
  if index < 0 ∨ (st.pendingCaptures.length : Int) ≤ index then st
  else
    match st.pendingCaptures.get? index.toNat with
    | none => st
    | some removed =>
      { st with pendingCaptures := st.pendingCaptures.eraseIdx index.toNat,
                seenM3u8 := seenRelease removed.m3u8_url st.seenM3u8 }

/-- `autoCaptureClickedPlay` (lines 716-720): unconditional cursor update. -/
def autoCaptureClickedPlay (episode : Int) (st : BgState) : BgState :=
  { st with autoCapture := { st.autoCapture with currentEp := episode } }

/-- `autoCaptureComplete` (lines 721-725). -/
def autoCaptureComplete (st : BgState) : BgState :=
  { st with autoCapture :=
      { st.autoCapture with active := false, finished := true } }

/-- `clearEpisodeState` (lines 726-732). -/
def clearEpisodeState (st : BgState) : BgState :=
  { st with seenM3u8 := [], subtitlesSent := [],
            autoCapture := { st.autoCapture with episodeDoneSent := false } }

/-- `autoCaptureEpisodesDiscovered` (lines 733-755), minus the
fire-and-forget season-info report. -/
def autoCaptureEpisodesDiscovered (episodes : List EpisodeHash)
    (st : BgState) : BgState :=
  if st.autoCapture.active = true ∧ 0 < episodes.length then
    { st with autoCapture :=
        { st.autoCapture with episodeHashes := episodes,
                              endEp := some (episodes.length : Int),
                              startEp := 1,
                              totalCount := st.autoCapture.totalCount +
                                (episodes.length : Int) } }
  else st

/-- `autoCaptureSeasonDetected` (lines 756-765). -/
def autoCaptureSeasonDetected (episodeCount : Int) (st : BgState) : BgState :=
  if st.autoCapture.active = true ∧ st.autoCapture.multiSeason = true then
    { st with autoCapture :=
        { st.autoCapture with endEp := some episodeCount,
                              startEp := 1,
                              totalCount := st.autoCapture.totalCount +
                                episodeCount } }
  else st

/-- `setEpisodeContext` (lines 766-776): `Map.set` on the per-tab context. -/
def setEpisodeContext (tabId : Int) (ctx : EpisodeCtx) (st : BgState) :
    BgState :=
  { st with episodeContextByTab :=
      (tabId, ctx) :: st.episodeContextByTab.filter (fun p => p.1 ≠ tabId) }

/-! ### Event system: every externally triggerable transition -/

/-- One externally triggered transition of the background script. -/
inductive Event where
  | observe (url pageUrl : String) (tabId : Int) (now : Nat)
  | observeSub (url : String)
  | autoDone (snapEpoch : Nat)
  | start (p : StartParams) (tabId : Int)
  | stop
  | advance (skipped : Bool) (now : Nat)
  | clickedPlay (episode : Int)
  | complete
  | clearEpisode
  | discovered (episodes : List EpisodeHash)
  | seasonDetected (episodeCount : Int)
  | confirm (index : Int) (now : Nat)
  | dismiss (index : Int)
  | clearAll
  | setCtx (tabId : Int) (ctx : EpisodeCtx)

/-- State effect of one event (outputs discarded). -/
def step (e : Event) (st : BgState) : BgState :=
  match e with
  | .observe url pageUrl tabId now => (observeM3u8 url pageUrl tabId now st).1
  | .observeSub url => observeSubtitle url st
  | .autoDone snap => (autoConfirmDone snap st).1
  | .start p tabId => startAutoCapture p tabId st
  | .stop => stopAutoCapture st
  | .advance skipped now => (autoCaptureAdvance skipped now st).1
  | .clickedPlay ep => autoCaptureClickedPlay ep st
  | .complete => autoCaptureComplete st
  | .clearEpisode => clearEpisodeState st
  | .discovered eps => autoCaptureEpisodesDiscovered eps st
  | .seasonDetected n => autoCaptureSeasonDetected n st
  | .confirm i now => (confirmDownload i now st).1
  | .dismiss i => dismissCapture i st
  | .clearAll => clearCaptures st
  | .setCtx tabId ctx => setEpisodeContext tabId ctx st

/-- Run a sequence of events from a state. -/
def runEvents (evs : List Event) (st : BgState) : BgState :=
  match evs with
  | [] => st
  | e :: rest => runEvents rest (step e st)

/-- States reachable from the initial module state. -/
def reaches (evs : List Event) : BgState :=
  runEvents evs initState

/-- Evaluate a sequence of pending `autoConfirmCapture` completions (each with
its epoch snapshot), counting how many done-signals fire. -/
def runDones (snaps : List Nat) (st : BgState) : BgState × Nat :=
  match snaps with
  | [] => (st, 0)
  | s :: rest =>
    let r := autoConfirmDone s st
    let r2 := runDones rest r.1
    (r2.1, (if r.2 then 1 else 0) + r2.2)

/-! ## Helper lemmas -/

/-- Once `episodeDoneSent` is set, a completion is suppressed without any
state change (line 394's guard, right disjunct). -/
theorem autoConfirmDone_sent (s : Nat) (st : BgState)
    (h : st.autoCapture.episodeDoneSent = true) :
    autoConfirmDone s st = (st, false) := by
  simp [autoConfirmDone, h]

/-- Once `episodeDoneSent` is set, a whole sequence of completions is
suppressed. -/
theorem runDones_sent (snaps : List Nat) (st : BgState)
    (h : st.autoCapture.episodeDoneSent = true) :
    runDones snaps st = (st, 0) := by
  induction snaps with
  | nil => rfl
  | cons s rest ih => simp [runDones, autoConfirmDone_sent s st h, ih]

/-- A completion whose snapshot differs from the current epoch is suppressed
without any state change (line 394's guard, left disjunct). -/
theorem autoConfirmDone_stale (s : Nat) (st : BgState)
    (h : s ≠ st.autoCapture.epoch) :
    autoConfirmDone s st = (st, false) := by
  simp [autoConfirmDone, h]

/-! ## C1 — at most one done-signal per epoch -/

/-- C1 (confirmed): while the session's epoch is unchanged, however many
`autoConfirmCapture` completions are evaluated for it (one per accepted
manifest observation), the `episodeDoneSent` guard lets exactly one
done-signal fire, and `doneCount` is incremented exactly once. -/
theorem done_signal_fires_exactly_once (snaps : List Nat) (st : BgState)
    (hfresh : st.autoCapture.episodeDoneSent = false)
    (hsnap : ∀ s ∈ snaps, s = st.autoCapture.epoch)
    (hne : snaps ≠ []) :
    (runDones snaps st).2 = 1 ∧
    (runDones snaps st).1.autoCapture.doneCount =
      st.autoCapture.doneCount + 1 := by
  cases snaps with
  | nil => exact absurd rfl hne
  | cons s rest =>
    have hs : s = st.autoCapture.epoch := hsnap s (List.mem_cons_self s rest)
    have hfire : autoConfirmDone s st =
        ({ st with autoCapture :=
            { st.autoCapture with episodeDoneSent := true,
                                  doneCount := st.autoCapture.doneCount + 1 } },
         true) := by
      simp [autoConfirmDone, hs, hfresh]
    have hrest := runDones_sent rest
        ({ st with autoCapture :=
            { st.autoCapture with episodeDoneSent := true,
                                  doneCount := st.autoCapture.doneCount + 1 } })
        rfl
    simp [runDones, hfire, hrest]

/-- Witness for C1: three manifest completions in one epoch fire one signal. -/
theorem done_signal_fires_exactly_once_witness :
    (runDones [0, 0, 0] initState).2 = 1 ∧
    (runDones [0, 0, 0] initState).1.autoCapture.doneCount =
      initState.autoCapture.doneCount + 1 :=
  done_signal_fires_exactly_once [0, 0, 0] initState rfl (by decide) (by decide)

/-! ## C2 — stale-epoch completions mutate nothing -/

/-- C2 (confirmed): a sequence of `autoConfirmCapture` completions whose
epoch snapshots are all older than the session's current epoch leaves the
whole module state — session, captures, pending list and every registry —
unchanged, and fires no done-signal. -/
theorem stale_completions_no_mutation (snaps : List Nat) (st : BgState)
    (hstale : ∀ s ∈ snaps, s < st.autoCapture.epoch) :
    runDones snaps st = (st, 0) := by
  induction snaps with
  | nil => rfl
  | cons s rest ih =>
    have hne : s ≠ st.autoCapture.epoch :=
      Nat.ne_of_lt (hstale s (List.mem_cons_self s rest))
    have ih2 := ih (fun x hx => hstale x (List.mem_cons_of_mem s hx))
    simp [runDones, autoConfirmDone_stale s st hne, ih2]

/-- A state two epochs into a session, for the C2 witness. -/
def epochTwoState : BgState :=
  { initState with autoCapture := { initAutoCapture with epoch := 2 } }

/-- Witness for C2: two stale completions leave the state untouched. -/
theorem stale_completions_no_mutation_witness :
    runDones [0, 1] epochTwoState = (epochTwoState, 0) :=
  stale_completions_no_mutation [0, 1] epochTwoState (by decide)

/-! ## C9 — SeenUrlRegistry admit/release -/

/-- C9 (confirmed): a URL is admitted on first observation and rejected on
re-observation; after `release` the same URL is admitted again, while a
different registered URL stays rejected. -/
theorem seen_registry_admit_release (url v : String) (seen : List String)
    (hnew : seen.contains url = false)
    (hvreg : seen.contains v = true) :
    (seenAdmit url seen).1 = true ∧
    (seenAdmit url (seenAdmit url seen).2).1 = false ∧
    (seenAdmit url (seenRelease url (seenAdmit url seen).2)).1 = true ∧
    (seenRelease url (seenAdmit url seen).2).contains v = true ∧
    (seenAdmit v (seenRelease url (seenAdmit url seen).2)).1 = false := by
  have hnew2 : url ∉ seen := by simpa using hnew
  have hvreg2 : v ∈ seen := by simpa using hvreg
  refine ⟨?_, ?_, ?_, ?_, ?_⟩ <;>
    simp [seenAdmit, seenRelease, hnew2, hvreg2]

/-- Witness for C9 at concrete URLs. -/
theorem seen_registry_admit_release_witness :
    (seenAdmit "https://a.example/x.m3u8" ["https://a.example/y.m3u8"]).1 = true ∧
    (seenAdmit "https://a.example/x.m3u8"
      (seenAdmit "https://a.example/x.m3u8" ["https://a.example/y.m3u8"]).2).1 = false ∧
    (seenAdmit "https://a.example/x.m3u8"
      (seenRelease "https://a.example/x.m3u8"
        (seenAdmit "https://a.example/x.m3u8" ["https://a.example/y.m3u8"]).2)).1 = true ∧
    (seenRelease "https://a.example/x.m3u8"
      (seenAdmit "https://a.example/x.m3u8" ["https://a.example/y.m3u8"]).2).contains
        "https://a.example/y.m3u8" = true ∧
    (seenAdmit "https://a.example/y.m3u8"
      (seenRelease "https://a.example/x.m3u8"
        (seenAdmit "https://a.example/x.m3u8" ["https://a.example/y.m3u8"]).2)).1 = false :=
  seen_registry_admit_release "https://a.example/x.m3u8" "https://a.example/y.m3u8"
    ["https://a.example/y.m3u8"] (by decide) (by decide)

/-! ## C10 — bounded capture lists -/

/-- A push-then-truncate never leaves more than `n` entries. -/
theorem pushTrunc_length_le (n : Nat) (l : List α) (x : α) :
    (pushTrunc n l x).length ≤ n := by
  simp only [pushTrunc]
  split
  · simp only [List.length_drop]
    omega
  · next h => omega

/-- Removing an element never lengthens a list. -/
theorem length_eraseIdx_le (l : List α) (i : Nat) :
    (l.eraseIdx i).length ≤ l.length := by
  induction l generalizing i with
  | nil => simp [List.eraseIdx]
  | cons a t ih =>
    cases i with
    | zero => simp [List.eraseIdx]
    | succ j =>
      simpa [List.eraseIdx] using ih j

/-- Every single transition preserves the 20/50 bounds on the pending and
confirmed capture lists. -/
theorem step_bounds (e : Event) (st : BgState)
    (hp : st.pendingCaptures.length ≤ 20) (hc : st.captures.length ≤ 50) :
    (step e st).pendingCaptures.length ≤ 20 ∧
    (step e st).captures.length ≤ 50 := by
  cases e with
  | observe url pageUrl tabId now =>
    show (observeM3u8 url pageUrl tabId now st).1.pendingCaptures.length ≤ 20 ∧
         (observeM3u8 url pageUrl tabId now st).1.captures.length ≤ 50
    simp only [observeM3u8]
    split
    · exact ⟨hp, hc⟩
    · split
      · exact ⟨hp, hc⟩
      · split
        · split
          · exact ⟨hp, pushTrunc_length_le 50 _ _⟩
          · exact ⟨hp, hc⟩
        · exact ⟨pushTrunc_length_le 20 _ _, hc⟩
  | observeSub url =>
    show (observeSubtitle url st).pendingCaptures.length ≤ 20 ∧
         (observeSubtitle url st).captures.length ≤ 50
    unfold observeSubtitle
    split
    · exact ⟨hp, hc⟩
    · exact ⟨hp, hc⟩
  | autoDone snap =>
    show (autoConfirmDone snap st).1.pendingCaptures.length ≤ 20 ∧
         (autoConfirmDone snap st).1.captures.length ≤ 50
    simp only [autoConfirmDone]
    split
    · exact ⟨hp, hc⟩
    · exact ⟨hp, hc⟩
  | start p tabId =>
    cases p <;> exact ⟨by simp [step, startAutoCapture], hc⟩
  | stop => exact ⟨hp, hc⟩
  | advance skipped now =>
    show (autoCaptureAdvance skipped now st).1.pendingCaptures.length ≤ 20 ∧
         (autoCaptureAdvance skipped now st).1.captures.length ≤ 50
    simp only [autoCaptureAdvance]
    repeat' split
    all_goals exact ⟨hp, hc⟩
  | clickedPlay ep => exact ⟨hp, hc⟩
  | complete => exact ⟨hp, hc⟩
  | clearEpisode => exact ⟨hp, hc⟩
  | discovered eps =>
    show (autoCaptureEpisodesDiscovered eps st).pendingCaptures.length ≤ 20 ∧
         (autoCaptureEpisodesDiscovered eps st).captures.length ≤ 50
    unfold autoCaptureEpisodesDiscovered
    split
    · exact ⟨hp, hc⟩
    · exact ⟨hp, hc⟩
  | seasonDetected n =>
    show (autoCaptureSeasonDetected n st).pendingCaptures.length ≤ 20 ∧
         (autoCaptureSeasonDetected n st).captures.length ≤ 50
    unfold autoCaptureSeasonDetected
    split
    · exact ⟨hp, hc⟩
    · exact ⟨hp, hc⟩
  | confirm i now =>
    show (confirmDownload i now st).1.pendingCaptures.length ≤ 20 ∧
         (confirmDownload i now st).1.captures.length ≤ 50
    unfold confirmDownload
    split
    · exact ⟨hp, hc⟩
    · split
      · exact ⟨hp, hc⟩
      · exact ⟨le_trans (length_eraseIdx_le _ _) hp, pushTrunc_length_le 50 _ _⟩
  | dismiss i =>
    show (dismissCapture i st).pendingCaptures.length ≤ 20 ∧
         (dismissCapture i st).captures.length ≤ 50
    unfold dismissCapture
    split
    · exact ⟨hp, hc⟩
    · split
      · exact ⟨hp, hc⟩
      · exact ⟨le_trans (length_eraseIdx_le _ _) hp, hc⟩
  | clearAll => exact ⟨by simp [step, clearCaptures], by simp [step, clearCaptures]⟩
  | setCtx tabId ctx => exact ⟨hp, hc⟩

/-- The bounds hold along any run from any bounded start state. -/
theorem runEvents_bounds (evs : List Event) : ∀ st : BgState,
    st.pendingCaptures.length ≤ 20 → st.captures.length ≤ 50 →
    (runEvents evs st).pendingCaptures.length ≤ 20 ∧
    (runEvents evs st).captures.length ≤ 50 := by
  induction evs with
  | nil => exact fun st hp hc => ⟨hp, hc⟩
  | cons e rest ih =>
    intro st hp hc
    have h2 := step_bounds e st hp hc
    exact ih (step e st) h2.1 h2.2

/-- C10 (confirmed): after every sequence of observations, confirmations,
auto-confirmations (and any other transition of the script), the pending list
holds at most 20 entries and the captures list at most 50 — every insertion
is immediately followed by a truncation keeping only the most recent
entries. -/
theorem capture_lists_bounded (evs : List Event) :
    (reaches evs).pendingCaptures.length ≤ 20 ∧
    (reaches evs).captures.length ≤ 50 :=
  runEvents_bounds evs initState (by simp [initState]) (by simp [initState])

/-! ## C5 — single-season run, episodes 1..3 -/

/-- A full single-season run `startEp=1, endEp=3`: for each episode an
accepted manifest observation, its completion (done-signal), then
`advance(captured)`. -/
def singleSeasonRun : List Event :=
  [ .start (.single 1 1 3 1) 7,
    .observe "https://cdn.example/e1.m3u8" "https://1movies.bz/show#ep=1,1" 7 100,
    .autoDone 0,
    .advance false 200,
    .observe "https://cdn.example/e2.m3u8" "https://1movies.bz/show#ep=1,2" 7 300,
    .autoDone 1,
    .advance false 400,
    .observe "https://cdn.example/e3.m3u8" "https://1movies.bz/show#ep=1,3" 7 500,
    .autoDone 2,
    .advance false 900 ]

/-- C5 (confirmed): with `startEpisode=1, endEpisode=3`, three
`advance(captured)` calls, each preceded by an accepted manifest for the
current episode, drive `currentEp` through 1, 2, 3 and then finish the run
with `doneCount = totalCount = 3`, a grace deadline set (`now + 15000`), and
three captures submitted. -/
theorem single_season_run_to_finished :
    (reaches (singleSeasonRun.take 1)).autoCapture.currentEp = 1 ∧
    (reaches (singleSeasonRun.take 4)).autoCapture.currentEp = 2 ∧
    (reaches (singleSeasonRun.take 7)).autoCapture.currentEp = 3 ∧
    (reaches singleSeasonRun).autoCapture.active = false ∧
    (reaches singleSeasonRun).autoCapture.finished = true ∧
    (reaches singleSeasonRun).autoCapture.doneCount = 3 ∧
    (reaches singleSeasonRun).autoCapture.totalCount = 3 ∧
    (reaches singleSeasonRun).autoCapture.graceUntil = 900 + 15000 ∧
    (reaches singleSeasonRun).captures.length = 3 := by
  decide

/-! ## C6 — stop mid-run versus later advance / grace-window manifests -/

/-- Counterexample to C6 as stated: after `stop()` mid-run, a subsequent
`advance()` call does mutate session state — it flips `finished` from
`false` to `true` and rewrites `graceUntil` (the final else branch of the
`autoCaptureAdvance` handler runs unconditionally). -/
theorem advance_after_stop_mutates :
    (stopAutoCapture (startAutoCapture (StartParams.single 1 1 3 1) 7
        initState)).autoCapture.finished = false ∧
    (autoCaptureAdvance false 1000 (stopAutoCapture (startAutoCapture
        (StartParams.single 1 1 3 1) 7 initState))).1.autoCapture.finished
      = true ∧
    (autoCaptureAdvance false 1000 (stopAutoCapture (startAutoCapture
        (StartParams.single 1 1 3 1) 7 initState))).1.autoCapture.graceUntil
      = 1000 + 15000 := by
  decide

/-- C6 (corrected): after `stop()`, an `advance()` call performs no cursor
transition (episode, season, epoch and doneCount unchanged, `hasNext` false)
but does set `finished := true` and `graceUntil := now + 15000`; and a
manifest observed for the session's tab before the grace deadline still
results in a submission (the auto-confirm path runs). -/
theorem stop_then_advance_and_grace (st : BgState) (now now2 : Nat)
    (skipped : Bool) (url pageUrl : String) (tabId : Int)
    (hm3u8 : isSubstring ".m3u8".toList url.toList = true)
    (hfresh : (stopAutoCapture st).seenM3u8.contains url = false)
    (htab : st.autoCapture.tabId = some tabId)
    (hgrace : now2 < st.autoCapture.graceUntil)
    (hval : validateAuto (stopAutoCapture st).autoCapture pageUrl = true) :
    ((autoCaptureAdvance skipped now (stopAutoCapture st)).1.autoCapture.currentEp
        = st.autoCapture.currentEp ∧
     (autoCaptureAdvance skipped now (stopAutoCapture st)).1.autoCapture.currentSeason
        = st.autoCapture.currentSeason ∧
     (autoCaptureAdvance skipped now (stopAutoCapture st)).1.autoCapture.epoch
        = st.autoCapture.epoch ∧
     (autoCaptureAdvance skipped now (stopAutoCapture st)).1.autoCapture.doneCount
        = st.autoCapture.doneCount ∧
     (autoCaptureAdvance skipped now (stopAutoCapture st)).1.autoCapture.finished
        = true ∧
     (autoCaptureAdvance skipped now (stopAutoCapture st)).1.autoCapture.graceUntil
        = now + 15000 ∧
     (autoCaptureAdvance skipped now (stopAutoCapture st)).2 = false) ∧
    (observeM3u8 url pageUrl tabId now2 (stopAutoCapture st)).2 =
      ObserveOutcome.autoConfirm st.autoCapture.epoch := by
  constructor
  · simp [autoCaptureAdvance, stopAutoCapture]
  · have hadm : seenAdmit url (stopAutoCapture st).seenM3u8 =
        (true, url :: (stopAutoCapture st).seenM3u8) := by
      simp only [seenAdmit, hfresh]
      simp
    simp only [observeM3u8, hm3u8, hadm]
    simp only [stopAutoCapture] at hval ⊢
    simp only [htab] at hval ⊢
    simp [hgrace, hval]

/-- A state with an open grace window, for the C6 witness. -/
def graceState : BgState :=
  { initState with autoCapture :=
      { initAutoCapture with active := true, tabId := some 7, season := 1,
                             currentEp := 1, graceUntil := 5000 } }

/-- Witness for C6 (amended) at a concrete state and inputs. -/
theorem stop_then_advance_and_grace_witness :
    ((autoCaptureAdvance false 1000 (stopAutoCapture graceState)).1.autoCapture.currentEp
        = graceState.autoCapture.currentEp ∧
     (autoCaptureAdvance false 1000 (stopAutoCapture graceState)).1.autoCapture.currentSeason
        = graceState.autoCapture.currentSeason ∧
     (autoCaptureAdvance false 1000 (stopAutoCapture graceState)).1.autoCapture.epoch
        = graceState.autoCapture.epoch ∧
     (autoCaptureAdvance false 1000 (stopAutoCapture graceState)).1.autoCapture.doneCount
        = graceState.autoCapture.doneCount ∧
     (autoCaptureAdvance false 1000 (stopAutoCapture graceState)).1.autoCapture.finished
        = true ∧
     (autoCaptureAdvance false 1000 (stopAutoCapture graceState)).1.autoCapture.graceUntil
        = 1000 + 15000 ∧
     (autoCaptureAdvance false 1000 (stopAutoCapture graceState)).2 = false) ∧
    (observeM3u8 "https://cdn.example/late.m3u8" "https://1movies.bz/show#ep=1,1"
        7 100 (stopAutoCapture graceState)).2 =
      ObserveOutcome.autoConfirm graceState.autoCapture.epoch :=
  stop_then_advance_and_grace graceState 1000 100 false
    "https://cdn.example/late.m3u8" "https://1movies.bz/show#ep=1,1" 7
    (by decide) (by decide) (by decide) (by decide) (by decide)

/-! ## C7 — stop() idempotence -/

/-- Counterexample to C7 as stated: from a `Finished` session (reached by a
completed single-episode run), `stopAutoCapture` is not a no-op — it resets
the `finished` flag to `false`. -/
theorem stop_from_finished_not_noop :
    (reaches [Event.start (StartParams.single 1 1 1 1) 7,
              Event.advance false 100]).autoCapture.finished = true ∧
    (stopAutoCapture (reaches [Event.start (StartParams.single 1 1 1 1) 7,
              Event.advance false 100])).autoCapture.finished = false := by
  decide

/-- C7 (corrected): `stop()` is idempotent from every state; from `Idle` (or
`Stopped`, with both flags already cleared) it is a no-op on the whole
module state; and from any state it changes nothing but the `active` and
`finished` flags — so from `Finished` everything except the `finished` flag
is left unchanged. -/
theorem stop_idempotent_amended (st : BgState) :
    stopAutoCapture (stopAutoCapture st) = stopAutoCapture st ∧
    (st.autoCapture.active = false → st.autoCapture.finished = false →
      stopAutoCapture st = st) ∧
    (stopAutoCapture st).autoCapture =
      { st.autoCapture with active := false, finished := false } := by
  refine ⟨rfl, ?_, rfl⟩
  intro hact hfin
  cases st with
  | mk pc cs ss sm ectx ac =>
    cases ac
    simp_all [stopAutoCapture]

/-- Witness for C7 (amended): at the `Idle` initial state, stop is both
idempotent and a strict no-op. -/
theorem stop_idempotent_amended_witness :
    stopAutoCapture (stopAutoCapture initState) = stopAutoCapture initState ∧
    stopAutoCapture initState = initState :=
  ⟨(stop_idempotent_amended initState).1,
   (stop_idempotent_amended initState).2.1 rfl rfl⟩

/-! ## C8 — multi-season advance -/

/-- C8 (confirmed): in a multi-season run with `startSeason=1, endSeason=2`,
exhausting season 1 — by an `advance` when the known `endEp` is reached, or
by two consecutive `advance(skipped)` on an open-ended season — moves the
session to season 2 with `currentEp = startEp = 1`, `endEp` reset to null,
the discovered-episode list cleared and the epoch bumped. -/
theorem season_exhaustion_advances_season (st : BgState) (n1 n2 : Nat)
    (skipped : Bool)
    (hact : st.autoCapture.active = true)
    (hmulti : st.autoCapture.multiSeason = true)
    (_hss : st.autoCapture.startSeason = 1)
    (hcs : st.autoCapture.currentSeason = 1)
    (hes : st.autoCapture.endSeason = 2) :
    (∀ e : Int, st.autoCapture.endEp = some e → e ≤ st.autoCapture.currentEp →
      ((autoCaptureAdvance skipped n1 st).1.autoCapture.currentSeason = 2 ∧
       (autoCaptureAdvance skipped n1 st).1.autoCapture.season = 2 ∧
       (autoCaptureAdvance skipped n1 st).1.autoCapture.currentEp = 1 ∧
       (autoCaptureAdvance skipped n1 st).1.autoCapture.startEp = 1 ∧
       (autoCaptureAdvance skipped n1 st).1.autoCapture.endEp = none ∧
       (autoCaptureAdvance skipped n1 st).1.autoCapture.episodeHashes = [] ∧
       (autoCaptureAdvance skipped n1 st).1.autoCapture.epoch =
         st.autoCapture.epoch + 1)) ∧
    (st.autoCapture.endEp = none → st.autoCapture.consecutiveSkips = 0 →
      ((autoCaptureAdvance true n2 (autoCaptureAdvance true n1 st).1).1.autoCapture.currentSeason = 2 ∧
       (autoCaptureAdvance true n2 (autoCaptureAdvance true n1 st).1).1.autoCapture.season = 2 ∧
       (autoCaptureAdvance true n2 (autoCaptureAdvance true n1 st).1).1.autoCapture.currentEp = 1 ∧
       (autoCaptureAdvance true n2 (autoCaptureAdvance true n1 st).1).1.autoCapture.startEp = 1 ∧
       (autoCaptureAdvance true n2 (autoCaptureAdvance true n1 st).1).1.autoCapture.endEp = none ∧
       (autoCaptureAdvance true n2 (autoCaptureAdvance true n1 st).1).1.autoCapture.episodeHashes = [] ∧
       (autoCaptureAdvance true n2 (autoCaptureAdvance true n1 st).1).1.autoCapture.epoch =
         st.autoCapture.epoch + 2)) := by
  constructor
  · intro e hend hle
    have hnlt : ¬(st.autoCapture.currentEp < e) := not_lt.mpr hle
    simp [autoCaptureAdvance, endEpOpenOrBelow, hact, hmulti, hcs, hes, hend,
          hnlt]
  · intro hopen hskips
    simp [autoCaptureAdvance, endEpOpenOrBelow, hact, hmulti, hcs, hes, hopen,
          hskips]

/-- Witness for C8: an actual multi-season start state, exhausted by two
consecutive skips. -/
theorem season_exhaustion_advances_season_witness :
    (autoCaptureAdvance true 20 (autoCaptureAdvance true 10
        (reaches [Event.start (StartParams.multi 1 2 1) 7])).1).1.autoCapture.currentSeason = 2 ∧
    (autoCaptureAdvance true 20 (autoCaptureAdvance true 10
        (reaches [Event.start (StartParams.multi 1 2 1) 7])).1).1.autoCapture.season = 2 ∧
    (autoCaptureAdvance true 20 (autoCaptureAdvance true 10
        (reaches [Event.start (StartParams.multi 1 2 1) 7])).1).1.autoCapture.currentEp = 1 ∧
    (autoCaptureAdvance true 20 (autoCaptureAdvance true 10
        (reaches [Event.start (StartParams.multi 1 2 1) 7])).1).1.autoCapture.startEp = 1 ∧
    (autoCaptureAdvance true 20 (autoCaptureAdvance true 10
        (reaches [Event.start (StartParams.multi 1 2 1) 7])).1).1.autoCapture.endEp = none ∧
    (autoCaptureAdvance true 20 (autoCaptureAdvance true 10
        (reaches [Event.start (StartParams.multi 1 2 1) 7])).1).1.autoCapture.episodeHashes = [] ∧
    (autoCaptureAdvance true 20 (autoCaptureAdvance true 10
        (reaches [Event.start (StartParams.multi 1 2 1) 7])).1).1.autoCapture.epoch =
      (reaches [Event.start (StartParams.multi 1 2 1) 7]).autoCapture.epoch + 2 :=
  (season_exhaustion_advances_season
      (reaches [Event.start (StartParams.multi 1 2 1) 7]) 10 20 true
      (by decide) (by decide) (by decide) (by decide) (by decide)).2
    (by decide) (by decide)

/-! ## C4 — open-ended season skip policy (with reachability) -/

/-- `observeM3u8` never touches the session object. -/
theorem observeM3u8_autoCapture (u p : String) (t : Int) (n : Nat)
    (st : BgState) :
    (observeM3u8 u p t n st).1.autoCapture = st.autoCapture := by
  simp only [observeM3u8]
  repeat' split
  all_goals rfl

/-- `observeSubtitle` never touches the session object. -/
theorem observeSubtitle_autoCapture (u : String) (st : BgState) :
    (observeSubtitle u st).autoCapture = st.autoCapture := by
  simp only [observeSubtitle]
  split <;> rfl

/-- `confirmDownload` never touches the session object. -/
theorem confirmDownload_autoCapture (i : Int) (n : Nat) (st : BgState) :
    (confirmDownload i n st).1.autoCapture = st.autoCapture := by
  simp only [confirmDownload]
  repeat' split
  all_goals rfl

/-- `dismissCapture` never touches the session object. -/
theorem dismissCapture_autoCapture (i : Int) (st : BgState) :
    (dismissCapture i st).autoCapture = st.autoCapture := by
  simp only [dismissCapture]
  repeat' split
  all_goals rfl

/-- Step preservation of the structural invariant: in every reachable state,
an active session with an unknown `endEp` is a multi-season session (the
only transitions that null out `endEp` are guarded by `multiSeason`). -/
theorem step_invOpen (e : Event) (st : BgState)
    (ih : st.autoCapture.active = true → st.autoCapture.endEp = none →
          st.autoCapture.multiSeason = true)
    (hact : (step e st).autoCapture.active = true)
    (hend : (step e st).autoCapture.endEp = none) :
    (step e st).autoCapture.multiSeason = true := by
  cases e with
  | observe url pageUrl tabId now =>
    simp only [step, observeM3u8_autoCapture] at hact hend ⊢
    exact ih hact hend
  | observeSub url =>
    simp only [step, observeSubtitle_autoCapture] at hact hend ⊢
    exact ih hact hend
  | autoDone snap =>
    simp only [step, autoConfirmDone] at hact hend ⊢
    by_cases h : snap ≠ st.autoCapture.epoch ∨ st.autoCapture.episodeDoneSent = true
    · rw [if_pos h] at hact hend ⊢
      exact ih hact hend
    · rw [if_neg h] at hact hend ⊢
      exact ih hact hend
  | start p tabId =>
    cases p with
    | single season startEp endEp serverNum => exact absurd hend (by simp [step, startAutoCapture])
    | multi startSeason endSeason serverNum => rfl
  | stop => exact absurd hact (by simp [step, stopAutoCapture])
  | advance skipped now =>
    simp only [step, autoCaptureAdvance] at hact hend ⊢
    by_cases h1 : (skipped && st.autoCapture.active && st.autoCapture.multiSeason
        && st.autoCapture.endEp.isNone) = true
    · rw [if_pos h1] at hact hend ⊢
      simp only [Bool.and_eq_true] at h1
      by_cases h2 : 2 ≤ st.autoCapture.consecutiveSkips + 1
      · rw [if_pos h2] at hact hend ⊢
        by_cases h3 : st.autoCapture.currentSeason < st.autoCapture.endSeason
        · rw [if_pos h3] at hact hend ⊢
          exact h1.1.2
        · rw [if_neg h3] at hact hend ⊢
          exact absurd hact (by simp)
      · rw [if_neg h2] at hact hend ⊢
        exact h1.1.2
    · rw [if_neg h1] at hact hend ⊢
      by_cases h2 : (st.autoCapture.active && endEpOpenOrBelow st.autoCapture) = true
      · rw [if_pos h2] at hact hend ⊢
        cases skipped with
        | true => exact ih hact hend
        | false => exact ih hact hend
      · rw [if_neg h2] at hact hend ⊢
        by_cases h3 : (st.autoCapture.active && st.autoCapture.multiSeason &&
            decide (st.autoCapture.currentSeason < st.autoCapture.endSeason)) = true
        · rw [if_pos h3] at hact hend ⊢
          simp only [Bool.and_eq_true] at h3
          exact h3.1.2
        · rw [if_neg h3] at hact hend ⊢
          exact absurd hact (by simp)
  | clickedPlay ep => exact ih hact hend
  | complete => exact absurd hact (by simp [step, autoCaptureComplete])
  | clearEpisode => exact ih hact hend
  | discovered eps =>
    simp only [step, autoCaptureEpisodesDiscovered] at hact hend ⊢
    by_cases h : st.autoCapture.active = true ∧ 0 < eps.length
    · rw [if_pos h] at hend
      exact absurd hend (by simp)
    · rw [if_neg h] at hact hend ⊢
      exact ih hact hend
  | seasonDetected n =>
    simp only [step, autoCaptureSeasonDetected] at hact hend ⊢
    by_cases h : st.autoCapture.active = true ∧ st.autoCapture.multiSeason = true
    · rw [if_pos h] at hend
      exact absurd hend (by simp)
    · rw [if_neg h] at hact hend ⊢
      exact ih hact hend
  | confirm i now =>
    simp only [step, confirmDownload_autoCapture] at hact hend ⊢
    exact ih hact hend
  | dismiss i =>
    simp only [step, dismissCapture_autoCapture] at hact hend ⊢
    exact ih hact hend
  | clearAll => exact absurd hact (by simp [step, clearCaptures])
  | setCtx tabId ctx => exact ih hact hend

/-- The invariant holds along every run. -/
theorem runEvents_invOpen (evs : List Event) : ∀ st : BgState,
    (st.autoCapture.active = true → st.autoCapture.endEp = none →
     st.autoCapture.multiSeason = true) →
    (runEvents evs st).autoCapture.active = true →
    (runEvents evs st).autoCapture.endEp = none →
    (runEvents evs st).autoCapture.multiSeason = true := by
  induction evs with
  | nil => exact fun st ih => ih
  | cons e rest ihr =>
    intro st ih
    exact ihr (step e st) (step_invOpen e st ih)

/-- Every reachable active session with unknown `endEp` is multi-season. -/
theorem reaches_open_multiSeason (evs : List Event)
    (hact : (reaches evs).autoCapture.active = true)
    (hend : (reaches evs).autoCapture.endEp = none) :
    (reaches evs).autoCapture.multiSeason = true :=
  runEvents_invOpen evs initState (fun h _ => nomatch h) hact hend

/-- C4 (confirmed): in any reachable running session on an open-ended season
(`endEp` null; such sessions are necessarily multi-season) with no pending
skip, two consecutive `advance(skipped)` calls exhaust the season — advancing
to the next season or finishing — while `advance(skipped)` followed by
`advance(captured)` does not exhaust it and resets the skip counter to 0;
and a single skip still advances `currentEp` by one. -/
theorem open_season_two_skips_exhaust (evs : List Event) (st : BgState)
    (n1 n2 : Nat)
    (hreach : st = reaches evs)
    (hact : st.autoCapture.active = true)
    (hopen : st.autoCapture.endEp = none)
    (hskips : st.autoCapture.consecutiveSkips = 0) :
    (((autoCaptureAdvance true n2 (autoCaptureAdvance true n1 st).1).1.autoCapture.currentSeason
        = st.autoCapture.currentSeason + 1 ∧
      (autoCaptureAdvance true n2 (autoCaptureAdvance true n1 st).1).1.autoCapture.active = true) ∨
     ((autoCaptureAdvance true n2 (autoCaptureAdvance true n1 st).1).1.autoCapture.active = false ∧
      (autoCaptureAdvance true n2 (autoCaptureAdvance true n1 st).1).1.autoCapture.finished = true)) ∧
    ((autoCaptureAdvance false n2 (autoCaptureAdvance true n1 st).1).1.autoCapture.active = true ∧
     (autoCaptureAdvance false n2 (autoCaptureAdvance true n1 st).1).1.autoCapture.currentSeason
        = st.autoCapture.currentSeason ∧
     (autoCaptureAdvance false n2 (autoCaptureAdvance true n1 st).1).1.autoCapture.consecutiveSkips = 0) ∧
    ((autoCaptureAdvance true n1 st).1.autoCapture.currentEp =
        st.autoCapture.currentEp + 1 ∧
     (autoCaptureAdvance true n1 st).1.autoCapture.active = true) := by
  have hmulti : st.autoCapture.multiSeason = true := by
    subst hreach
    exact reaches_open_multiSeason evs hact hopen
  by_cases hlt : st.autoCapture.currentSeason < st.autoCapture.endSeason
  · simp [autoCaptureAdvance, endEpOpenOrBelow, hact, hopen, hskips, hmulti,
          hlt]
  · simp [autoCaptureAdvance, endEpOpenOrBelow, hact, hopen, hskips, hmulti,
          hlt]

/-- The state right after starting a multi-season run over seasons 1-2. -/
def multiStartState : BgState :=
  reaches [Event.start (StartParams.multi 1 2 1) 7]

/-- Witness for C4 at the freshly started multi-season session. -/
theorem open_season_two_skips_exhaust_witness :
    (((autoCaptureAdvance true 20 (autoCaptureAdvance true 10 multiStartState).1).1.autoCapture.currentSeason
        = multiStartState.autoCapture.currentSeason + 1 ∧
      (autoCaptureAdvance true 20 (autoCaptureAdvance true 10 multiStartState).1).1.autoCapture.active = true) ∨
     ((autoCaptureAdvance true 20 (autoCaptureAdvance true 10 multiStartState).1).1.autoCapture.active = false ∧
      (autoCaptureAdvance true 20 (autoCaptureAdvance true 10 multiStartState).1).1.autoCapture.finished = true)) ∧
    ((autoCaptureAdvance false 20 (autoCaptureAdvance true 10 multiStartState).1).1.autoCapture.active = true ∧
     (autoCaptureAdvance false 20 (autoCaptureAdvance true 10 multiStartState).1).1.autoCapture.currentSeason
        = multiStartState.autoCapture.currentSeason ∧
     (autoCaptureAdvance false 20 (autoCaptureAdvance true 10 multiStartState).1).1.autoCapture.consecutiveSkips = 0) ∧
    ((autoCaptureAdvance true 10 multiStartState).1.autoCapture.currentEp =
        multiStartState.autoCapture.currentEp + 1 ∧
     (autoCaptureAdvance true 10 multiStartState).1.autoCapture.active = true) :=
  open_season_two_skips_exhaust [Event.start (StartParams.multi 1 2 1) 7]
    multiStartState 10 20 rfl (by decide) (by decide) (by decide)

/-! ## C3 — validation of observed manifests against the expected episode -/

/-- The acceptance condition exactly as C3 states it: when discovered
navigation tokens exist, the page hash must equal the expected episode's
token; otherwise the numeric season extracted from the page hash must equal
the expected season and the expected episode must lie within the hash's
episode range. -/
def claimAddressesExpected (ac : AutoCapture) (pageUrl : String) : Bool :=
  if 0 < ac.episodeHashes.length then
    match expectedToken ac, findEpHash pageUrl.toList with
    | some tok, some r => String.mk r.1 = tok
    | _, _ => false
  else
    match findEpHash pageUrl.toList with
    | some r =>
      decide (r.2.1 = expectedSeasonOf ac ∧ r.2.2.1 ≤ ac.currentEp ∧
              ac.currentEp ≤ (r.2.2.2).getD r.2.2.1)
    | none => false

/-- A running discovery-mode session expecting episode 1 with token
`#ep=1,1`. -/
def discoveryState : BgState :=
  { initState with autoCapture :=
      { initAutoCapture with active := true, tabId := some 7, currentEp := 1,
                             episodeHashes := [⟨"#ep=1,1"⟩] } }

/-- Counterexample to C3 as stated: a page URL with no parseable `#ep=` hash
does not address the expected episode in the claim's sense, yet the
observation is accepted — auto-confirmed and submitted (the code only
rejects when a parseable hash is present and mismatches). -/
theorem manifest_accepted_without_matching_hash :
    claimAddressesExpected discoveryState.autoCapture
      "https://1movies.bz/watch" = false ∧
    (observeM3u8 "https://cdn.example/x.m3u8" "https://1movies.bz/watch" 7 50
        discoveryState).2 = ObserveOutcome.autoConfirm 0 ∧
    (observeM3u8 "https://cdn.example/x.m3u8" "https://1movies.bz/watch" 7 50
        discoveryState).1.captures.length = 1 := by
  decide

/-- C3's amended acceptance condition: an observation is rejected only when
the page URL carries a parseable `#ep=` hash that positively contradicts the
expected episode — in discovery mode (a truthy, i.e. non-empty, token known
for the current index) a hash text different from the expected token, in
fallback mode a parsed hash whose season differs from the expected one or
whose episode range does not contain the expected episode.  In every other
case (no parseable hash, no token for the current index, or an empty-string
token, which is falsy in JS and skips the comparison) it is accepted. -/
def amendedAccepts (ac : AutoCapture) (pageUrl : String) : Bool :=
  match findEpHash pageUrl.toList with
  | none => true
  | some r =>
    if 0 < ac.episodeHashes.length then
      match expectedToken ac with
      | some tok => if tok = "" then true else String.mk r.1 = tok
      | none => true
    else
      decide (r.2.1 = expectedSeasonOf ac ∧ r.2.2.1 ≤ ac.currentEp ∧
              ac.currentEp ≤ (r.2.2.2).getD r.2.2.1)

/-- The source's validation (lines 127-156) coincides with the amended
acceptance condition. -/
theorem validateAuto_eq_amended (ac : AutoCapture) (pageUrl : String) :
    validateAuto ac pageUrl = amendedAccepts ac pageUrl := by
  unfold validateAuto amendedAccepts
  cases hfind : findEpHash pageUrl.toList <;>
    cases htok : expectedToken ac <;>
      by_cases hlen : 0 < ac.episodeHashes.length <;>
        simp [hfind, htok, hlen, not_or, not_lt]

/-- C3 (corrected): while auto-capture is active (or within grace) for the
session's tab, a fresh manifest observation is accepted — submitted and
recorded in `captures` — exactly when the page URL does not positively
contradict the expected episode (in particular it is accepted when the page
URL has no parseable hash, or the discovered token is absent or empty); on a
positive hash mismatch it is silently dropped: no submission, and no state
change besides the dedup registration of the URL that the listener performs
before validating. -/
theorem manifest_validation_amended (url pageUrl : String) (tabId : Int)
    (now : Nat) (st : BgState)
    (hm3u8 : isSubstring ".m3u8".toList url.toList = true)
    (hfresh : st.seenM3u8.contains url = false)
    (htab : st.autoCapture.tabId = some tabId)
    (hmode : st.autoCapture.active = true ∨ now < st.autoCapture.graceUntil) :
    (amendedAccepts st.autoCapture pageUrl = true →
      observeM3u8 url pageUrl tabId now st =
        ({ st with seenM3u8 := url :: st.seenM3u8,
                   captures := pushTrunc 50 st.captures
                     { m3u8_url := url, page_url := pageUrl, tabId := tabId,
                       timestamp := now, status := "sending" } },
         ObserveOutcome.autoConfirm st.autoCapture.epoch)) ∧
    (amendedAccepts st.autoCapture pageUrl = false →
      observeM3u8 url pageUrl tabId now st =
        ({ st with seenM3u8 := url :: st.seenM3u8 },
         ObserveOutcome.rejected)) := by
  have hadm : seenAdmit url st.seenM3u8 = (true, url :: st.seenM3u8) := by
    simp only [seenAdmit, hfresh]
    simp
  constructor <;> intro hv <;>
    simp only [observeM3u8, hm3u8, hadm] <;>
    simp [htab, hmode, validateAuto_eq_amended, hv]

/-- Witness for C3 (amended), exercising the rejection side: a page hash
that differs from the discovered token drops the observation with only the
dedup registration as a footprint. -/
theorem manifest_validation_amended_witness :
    observeM3u8 "https://cdn.example/w2.m3u8" "https://1movies.bz/watch#ep=2,2"
        7 60 discoveryState =
      ({ discoveryState with
          seenM3u8 := "https://cdn.example/w2.m3u8" :: discoveryState.seenM3u8 },
       ObserveOutcome.rejected) :=
  (manifest_validation_amended "https://cdn.example/w2.m3u8"
      "https://1movies.bz/watch#ep=2,2" 7 60 discoveryState
      (by decide) (by decide) (by decide) (by decide)).2 (by decide)

end ThunderheadHls
